import Mathlib

/- Verification of the SAP monitoring agent (src/llm.py and
src/test_updated_template.py): a shallow embedding of the Python values the
agent manipulates, the JSON fragment it parses and serializes, the command
registry and its validation, the tool executor, the function-calling schema
builder, and the bounded tool-calling chat loop. -/

namespace Hub

/-- Model of a Python value as produced by json.loads and as carried in
tool-call argument mappings. Dicts are association lists in insertion
order (Python dicts preserve insertion order and have unique keys). -/
inductive PyVal where
  | none : PyVal
  | bool : Bool → PyVal
  | int : Int → PyVal
  | str : String → PyVal
  | list : List PyVal → PyVal
  | dict : List (String × PyVal) → PyVal

/-- The literal left-brace character. -/
def lb : Char := '\x7b'

/-- The literal right-brace character. -/
def rb : Char := '\x7d'

/-- Left brace as a one-character string. -/
def lbs : String := String.mk [lb]

/-- Right brace as a one-character string. -/
def rbs : String := String.mk [rb]

/-- Single-quote character as a one-character string (used by the Python
repr of strings). -/
def sq : String := String.mk ['\x27']

/-- Model of Python dict.get k (None default absent): first binding wins;
Python dicts have unique keys so this is exact. -/
def dictGet (d : List (String × PyVal)) (k : String) : Option PyVal :=
  (d.find? (fun kv => kv.1 == k)).map (fun kv => kv.2)

/-- Model of Python dict.get(k) with its None default. -/
def pyGetDefault (d : List (String × PyVal)) (k : String) : PyVal :=
  (dictGet d k).getD PyVal.none

/-- Model of Python (k in dict). -/
def hasKey (d : List (String × PyVal)) (k : String) : Bool :=
  d.any (fun kv => kv.1 == k)

/-- Python whitespace for str.strip and for the JSON lexer. -/
def pyIsSpace (c : Char) : Bool :=
  c = ' ' || c = '\t' || c = '\n' || c = '\r' || c = '\x0b' || c = '\x0c'

/-- Model of Python str.strip() with no argument. -/
def pyStrip (s : String) : String :=
  String.mk (((s.data.dropWhile pyIsSpace).reverse.dropWhile pyIsSpace).reverse)

/-- Drop leading JSON whitespace. -/
def skipWs : List Char → List Char
  | [] => []
  | c :: cs => if pyIsSpace c then skipWs cs else c :: cs

/-- Scan the remainder of a JSON string literal (after the opening quote),
decoding the common backslash escapes; fueled for termination. -/
def parseStrChars : Nat → List Char → Option (List Char × List Char)
  | 0, _ => Option.none
  | _ + 1, [] => Option.none
  | f + 1, c :: cs =>
    if c = '"' then Option.some ([], cs)
    else if c = '\\' then
      match cs with
      | [] => Option.none
      | e :: cs2 =>
        let decoded := if e = 'n' then '\n' else if e = 't' then '\t'
          else if e = 'r' then '\r' else e
        match parseStrChars f cs2 with
        | Option.some (r, rest) => Option.some (decoded :: r, rest)
        | Option.none => Option.none
    else
      match parseStrChars f cs with
      | Option.some (r, rest) => Option.some (c :: r, rest)
      | Option.none => Option.none

/-- Accumulate a run of decimal digits. -/
def digitsToNat : Nat → List Char → Nat × List Char
  | acc, [] => (acc, [])
  | acc, c :: cs =>
    if c.isDigit then digitsToNat (acc * 10 + (c.toNat - 48)) cs else (acc, c :: cs)

/-- Scan a nonempty run of decimal digits. -/
def parseDigits : List Char → Option (Nat × List Char)
  | [] => Option.none
  | c :: cs => if c.isDigit then Option.some (digitsToNat (c.toNat - 48) cs) else Option.none

mutual

/-- Recursive-descent scanner for one JSON value (integer fragment of JSON
numbers; enough of json.loads for the strings this development evaluates).
Fueled for termination; json_loads supplies ample fuel. -/
def parseVal : Nat → List Char → Option (PyVal × List Char)
  | 0, _ => Option.none
  | Nat.succ f, s =>
    match skipWs s with
    | [] => Option.none
    | c :: cs =>
      if c = '"' then
        match parseStrChars (cs.length + 1) cs with
        | Option.some (r, rest) => Option.some (PyVal.str (String.mk r), rest)
        | Option.none => Option.none
      else if c = '[' then
        match skipWs cs with
        | ']' :: rest => Option.some (PyVal.list [], rest)
        | _ =>
          match parseElems f cs with
          | Option.some (vs, rest) => Option.some (PyVal.list vs, rest)
          | Option.none => Option.none
      else if c = lb then
        match skipWs cs with
        | d :: rest =>
          if d = rb then Option.some (PyVal.dict [], rest)
          else
            match parseMembers f cs with
            | Option.some (ms, rest2) => Option.some (PyVal.dict ms, rest2)
            | Option.none => Option.none
        | [] => Option.none
      else if c = 't' then
        match cs with
        | 'r' :: 'u' :: 'e' :: rest => Option.some (PyVal.bool true, rest)
        | _ => Option.none
      else if c = 'f' then
        match cs with
        | 'a' :: 'l' :: 's' :: 'e' :: rest => Option.some (PyVal.bool false, rest)
        | _ => Option.none
      else if c = 'n' then
        match cs with
        | 'u' :: 'l' :: 'l' :: rest => Option.some (PyVal.none, rest)
        | _ => Option.none
      else if c = '-' then
        match parseDigits cs with
        | Option.some (n, rest) => Option.some (PyVal.int (-(n : Int)), rest)
        | Option.none => Option.none
      else if c.isDigit then
        match parseDigits (c :: cs) with
        | Option.some (n, rest) => Option.some (PyVal.int (n : Int), rest)
        | Option.none => Option.none
      else Option.none

/-- Scan the comma-separated elements of a JSON array up to the closing
bracket. -/
def parseElems : Nat → List Char → Option (List PyVal × List Char)
  | 0, _ => Option.none
  | Nat.succ f, s =>
    match parseVal f s with
    | Option.none => Option.none
    | Option.some (v, rest) =>
      match skipWs rest with
      | ',' :: rest2 =>
        match parseElems f rest2 with
        | Option.some (vs, rest3) => Option.some (v :: vs, rest3)
        | Option.none => Option.none
      | ']' :: rest2 => Option.some ([v], rest2)
      | _ => Option.none

/-- Scan the comma-separated members of a JSON object up to the closing
brace. -/
def parseMembers : Nat → List Char → Option (List (String × PyVal) × List Char)
  | 0, _ => Option.none
  | Nat.succ f, s =>
    match skipWs s with
    | '"' :: cs =>
      match parseStrChars (cs.length + 1) cs with
      | Option.none => Option.none
      | Option.some (k, rest) =>
        match skipWs rest with
        | ':' :: rest2 =>
          match parseVal f rest2 with
          | Option.none => Option.none
          | Option.some (v, rest3) =>
            match skipWs rest3 with
            | ',' :: rest4 =>
              match parseMembers f rest4 with
              | Option.some (ms, rest5) => Option.some ((String.mk k, v) :: ms, rest5)
              | Option.none => Option.none
            | d :: rest4 =>
              if d = rb then Option.some ([(String.mk k, v)], rest4) else Option.none
            | [] => Option.none
        | _ => Option.none
    | _ => Option.none

end

/-- Model of Python json.loads: a successful parse of the whole input (with
trailing whitespace allowed) yields the value; anything else is a
JSONDecodeError, modelled as Option.none. -/
def json_loads (s : String) : Option PyVal :=
  match parseVal (s.length + 1) s.data with
  | Option.some (v, rest) => if skipWs rest = [] then Option.some v else Option.none
  | Option.none => Option.none

/-- JSON escaping of one character, as json.dumps performs it for the
characters that occur in this development. -/
def jsonEscapeChar (c : Char) : String :=
  if c = '"' then "\\\""
  else if c = '\\' then "\\\\"
  else if c = '\n' then "\\n"
  else if c = '\t' then "\\t"
  else if c = '\r' then "\\r"
  else String.mk [c]

/-- JSON escaping of a string body. -/
def jsonEscape (s : String) : String :=
  String.join (s.data.map jsonEscapeChar)

/-- Model of Python json.dumps with the default separators. -/
def json_dumps : PyVal → String
  | PyVal.none => "null"
  | PyVal.bool b => if b then "true" else "false"
  | PyVal.int i => toString i
  | PyVal.str s => "\"" ++ jsonEscape s ++ "\""
  | PyVal.list vs =>
    "[" ++ String.intercalate (", ") (vs.attach.map (fun y =>
      match y with
      | ⟨v, _⟩ => json_dumps v)) ++ "]"
  | PyVal.dict ms =>
    lbs ++ String.intercalate (", ")
      (ms.attach.map (fun y =>
        match y with
        | ⟨(k, v), _⟩ => "\"" ++ jsonEscape k ++ "\": " ++ json_dumps v)) ++ rbs
decreasing_by
all_goals
  rename_i hmem
  have h := List.sizeOf_lt_of_mem hmem
  simp_all
  omega

/-- Model of Python repr, as used by f-string interpolation of dicts in the
error message of _execute_tool_call (single-quote string repr; exact for
the values this development evaluates). -/
def pyRepr : PyVal → String
  | PyVal.none => "None"
  | PyVal.bool b => if b then "True" else "False"
  | PyVal.int i => toString i
  | PyVal.str s => sq ++ s ++ sq
  | PyVal.list vs =>
    "[" ++ String.intercalate (", ") (vs.attach.map (fun y =>
      match y with
      | ⟨v, _⟩ => pyRepr v)) ++ "]"
  | PyVal.dict ms =>
    lbs ++ String.intercalate (", ")
      (ms.attach.map (fun y =>
        match y with
        | ⟨(k, v), _⟩ => sq ++ k ++ sq ++ ": " ++ pyRepr v)) ++ rbs
decreasing_by
all_goals
  rename_i hmem
  have h := List.sizeOf_lt_of_mem hmem
  simp_all
  omega

/-- One entry of SAPMonitoringAgent.COMMAND_SPECS (src/llm.py). -/
structure CommandSpec where
  description : String
  params : List (String × String)
  required : List String
  agent_command : String
  backend : String
deriving DecidableEq

/-- The cpu_info entry of COMMAND_SPECS. -/
def cpu_info_spec : CommandSpec :=
  { description := "Get current CPU usage", params := [], required := [],
    agent_command := "top -bn1 | grep " ++ sq ++ "Cpu(s)" ++ sq ++ " | head -1",
    backend := "shell" }

/-- The memory_info entry of COMMAND_SPECS. -/
def memory_info_spec : CommandSpec :=
  { description := "Get current memory usage", params := [], required := [],
    agent_command := "free -h", backend := "shell" }

/-- The get_process_list entry of COMMAND_SPECS. -/
def get_process_list_spec : CommandSpec :=
  { description := "Get list of running processes for a given instance",
    params := [("instance", "00"), ("filter", "SAP*"), ("limit", "50")],
    required := ["instance"],
    agent_command := "execute soap call", backend := "soap" }

/-- The disk_usage entry of COMMAND_SPECS. -/
def disk_usage_spec : CommandSpec :=
  { description := "Get disk usage stats for a path",
    params := [("path", "/hana"), ("threshold", "80")],
    required := ["path"],
    agent_command := "df -h \x7b\x7b.path\x7d\x7d", backend := "shell" }

/-- SAPMonitoringAgent.COMMAND_SPECS: the command registry, in source
(insertion) order. -/
def COMMAND_SPECS : List (String × CommandSpec) :=
  [("cpu_info", cpu_info_spec),
   ("memory_info", memory_info_spec),
   ("get_process_list", get_process_list_spec),
   ("disk_usage", disk_usage_spec)]

/-- SAPMonitoringAgent._validate_command: unknown command fails; otherwise
every required parameter name must be among the params keys (the Python
set-subset check). -/
def validate_command (command : String) (params : List (String × PyVal)) : Bool :=
  match COMMAND_SPECS.lookup command with
  | Option.none => false
  | Option.some spec => spec.required.all (fun r => params.any (fun kv => kv.1 == r))

/-- Python exception escaping a modelled function. -/
inductive PyExn where
  | attributeError : String → PyExn
deriving DecidableEq

/-- Python type name, as it appears in AttributeError messages. -/
def pyTypeName : PyVal → String
  | PyVal.none => "NoneType"
  | PyVal.bool _ => "bool"
  | PyVal.int _ => "int"
  | PyVal.str _ => "str"
  | PyVal.list _ => "list"
  | PyVal.dict _ => "dict"

/-- Model of the Python comparison (x == "monitoring") for an optional
looked-up value. -/
def isMonitoringStr : Option PyVal → Bool
  | Option.some (PyVal.str s) => s == "monitoring"
  | _ => false

/-- SAPMonitoringAgent._parse_json_response. Only json.JSONDecodeError is
caught (modelled by json_loads returning Option.none); when json.loads
yields a value that is not a dict, the attribute access action.get raises
AttributeError, which escapes. -/
def parse_json_response (response : String) : Except PyExn (Option PyVal) :=
  match json_loads response with
  | Option.none => Except.ok Option.none
  | Option.some (PyVal.dict d) =>
    if isMonitoringStr (dictGet d "action") && hasKey d "server" && hasKey d "command" then
      Except.ok (Option.some (PyVal.dict d))
    else
      Except.ok Option.none
  | Option.some v => Except.error (PyExn.attributeError (pyTypeName v))

/-- Outcome of the requests.post call plus response.json() inside
_call_agent_api: either a decoded JSON body, or any raised exception
(connection failure, timeout, malformed body) with its str(e). -/
inductive TransportOutcome where
  | ok : PyVal → TransportOutcome
  | exn : String → TransportOutcome

/-- The transport boundary: what the outbound HTTP call does for a given
server value, command name and params mapping. -/
def Transport : Type :=
  PyVal → String → List (String × PyVal) → TransportOutcome

/-- SAPMonitoringAgent._call_agent_api: params defaults to the empty dict;
the whole body sits in try/except, so an exception becomes the dict
returned by the except branch. -/
def call_agent_api (tr : Transport) (server : PyVal) (command : String)
    (params : Option (List (String × PyVal))) : PyVal :=
  match tr server command (params.getD []) with
  | TransportOutcome.ok body => body
  | TransportOutcome.exn e => PyVal.dict [("error", PyVal.str e)]

/-- One entry of llm_response.tool_calls as _execute_tool_call reads it:
tool_call["id"], tool_call["name"], tool_call["args"]. -/
structure ToolCall where
  id : String
  name : String
  args : List (String × PyVal)

/-- The dict comprehension in _execute_tool_call: everything in the
arguments except the server key. -/
def extract_params (args : List (String × PyVal)) : List (String × PyVal) :=
  args.filter (fun kv => kv.1 != "server")

/-- SAPMonitoringAgent._execute_tool_call: the function name is the
command; server is read with .get (None when absent); unknown command and
invalid params produce structured error dicts; otherwise the agent API is
called. -/
def execute_tool_call (tr : Transport) (tc : ToolCall) : PyVal :=
  let command := tc.name
  let server := pyGetDefault tc.args "server"
  let params := extract_params tc.args
  if (COMMAND_SPECS.lookup command).isNone then
    PyVal.dict [("error", PyVal.str ("Unknown command: " ++ command))]
  else if !(validate_command command params) then
    PyVal.dict [("error", PyVal.str ("Invalid params for " ++ command ++ ": " ++
      pyRepr (PyVal.dict params)))]
  else
    call_agent_api tr server command (Option.some params)

/-- The JSON-schema description of one parameter in a generated tool. -/
structure ParamProp where
  type : String
  description : String
deriving DecidableEq

/-- The function part of one generated OpenAI tool. -/
structure ToolFunctionSchema where
  name : String
  description : String
  properties : List (String × ParamProp)
  required : List String
deriving DecidableEq

/-- One generated OpenAI tool. -/
structure Tool where
  type : String
  function : ToolFunctionSchema
deriving DecidableEq

/-- SAPMonitoringAgent._build_command_specific_tools: one tool per registry
entry; properties start with the server parameter and then cover every
declared parameter; the required array is server followed by the
command's required list. -/
def build_command_specific_tools : List Tool :=
  COMMAND_SPECS.map (fun p =>
    { type := "function",
      function :=
        { name := p.1,
          description := p.2.description ++ " on specified server",
          properties :=
            ("server", { type := "string", description := "Server name to monitor" }) ::
            p.2.params.map (fun q =>
              (q.1,
               { type := "string",
                 description :=
                   (if p.2.required.contains q.1 then "Required" else "Optional") ++
                   " parameter for " ++ p.1 ++ " command (default: " ++ q.2 ++ ")" })),
          required := "server" :: p.2.required } })

/-- One conversation message, as the dicts the chat method builds: an
assistant message stores its tool_calls list ([] models the absent
tool_calls key), a tool message stores tool_call_id and content. -/
inductive Msg where
  | system : String → Msg
  | user : String → Msg
  | assistant : String → List ToolCall → Msg
  | tool : String → String → Msg

/-- Result of one self.llm.invoke call: either the response object
(content, which may be None, and tool_calls, which may be None), or a
raised exception with its str(e). -/
inductive LLMResp where
  | ok : Option String → Option (List ToolCall) → LLMResp
  | exn : String → LLMResp

/-- The generation-service boundary: what self.llm.invoke returns for a
given working message list. -/
def LLM : Type := List Msg → LLMResp

/-- The content line of chat: llm_response.content.strip() if
llm_response.content else "". -/
def contentOf : Option String → String
  | Option.some c => if c = "" then "" else pyStrip c
  | Option.none => ""

/-- The tool_calls line of chat: llm_response.tool_calls or []. -/
def toolCallsOf : Option (List ToolCall) → List ToolCall
  | Option.some tcs => tcs
  | Option.none => []

/-- Ghost-count bump for one more generation-service call. -/
def nextStep (x : Option String × List Msg × Nat) : Option String × List Msg × Nat :=
  (x.1, x.2.1, x.2.2 + 1)

/-- The for-loop of SAPMonitoringAgent.chat over the remaining steps.
Returns the final_response (none when the budget ran out while still
reasoning), the working messages, and as a ghost observation the number of
generation-service (llm.invoke) calls performed. Each iteration: invoke
the llm (an exception ends the loop with an error message, appending
nothing); append the assistant message (with its tool_calls when
nonempty); with tool calls, execute each in order, append each result,
continue; without, the content is the final response. -/
def chatLoop (llm : LLM) (tr : Transport) : Nat → List Msg → Option String × List Msg × Nat
  | 0, messages => (Option.none, messages, 0)
  | Nat.succ f, messages =>
    match llm messages with
    | LLMResp.exn e =>
      (Option.some ("Error communicating with AI service: " ++ e), messages, 1)
    | LLMResp.ok c? tcs? =>
      let content := contentOf c?
      let tool_calls := toolCallsOf tcs?
      let messages2 := messages ++ [Msg.assistant content tool_calls]
      if tool_calls.isEmpty then
        (Option.some content, messages2, 1)
      else
        nextStep (chatLoop llm tr f
          (messages2 ++ tool_calls.map (fun tc =>
            Msg.tool tc.id (json_dumps (execute_tool_call tr tc)))))

/-- The step-budget fallback of chat: a reasoning run that produced no
final response yields the explicit could-not-complete message. -/
def finalizeResp (max_steps : Nat) : Option String → String
  | Option.some s => s
  | Option.none =>
    "Unable to complete request within " ++ toString max_steps ++
    " steps. Please try a simpler request."

/-- SAPMonitoringAgent.chat: runs the loop on a copy of the caller's
history, then appends exactly one assistant message carrying the final
response to the caller-owned history. Returns (return value, updated
chat_history). -/
def chat (llm : LLM) (tr : Transport) (chat_history : List Msg) (max_steps : Nat) :
    String × List Msg :=
  (finalizeResp max_steps (chatLoop llm tr max_steps chat_history).1,
   chat_history ++
     [Msg.assistant (finalizeResp max_steps (chatLoop llm tr max_steps chat_history).1) []])

namespace TemplateTest

/-- One entry of the COMMAND_SPECS local to build_command_help
(src/test_updated_template.py). -/
structure SpecEntry where
  description : String
  params : List (String × String)
deriving DecidableEq

/-- The COMMAND_SPECS literal inside build_command_help, in source order. -/
def COMMAND_SPECS : List (String × SpecEntry) :=
  [("cpu", { description := "Get current CPU usage", params := [] }),
   ("memory", { description := "Get current memory usage", params := [] }),
   ("get_process_list",
    { description := "Get list of running processes for a given instance",
      params := [("instance", "00")] }),
   ("disk_usage",
    { description := "Get disk usage stats for a mount point",
      params := [("mount", "/hana")] })]

/-- Python str() of a dict of strings, as the f-string interpolation of
spec params renders it. -/
def pyDictReprSS (d : List (String × String)) : String :=
  lbs ++ String.intercalate (", ")
    (d.map (fun p => sq ++ p.1 ++ sq ++ ": " ++ sq ++ p.2 ++ sq)) ++ rbs

/-- The help_lines list comprehension of build_command_help. -/
def help_lines : List String :=
  COMMAND_SPECS.map (fun p =>
    "- " ++ p.1 ++ ": " ++ p.2.description ++ ", params: " ++ pyDictReprSS p.2.params)

/-- The help_text join of build_command_help. -/
def help_text : String :=
  String.intercalate ("\n") help_lines

/-- Python str.replace restricted to a one-character pattern (the only
shape the source uses): every occurrence of the character becomes the
replacement. -/
def replaceChar (c : Char) (r : List Char) : List Char → List Char
  | [] => []
  | x :: xs => (if x = c then r else [x]) ++ replaceChar c r xs

/-- build_command_help: render the catalog, then
help_text.replace(left-brace, doubled).replace(right-brace, doubled). -/
def build_command_help : String :=
  String.mk (replaceChar rb [rb, rb] (replaceChar lb [lb, lb] help_text.data))

/-- Model of the f-string template scanner applied to the slice of the
prompt where the catalog is interpolated: a doubled brace is the literal
brace; a single brace would start (or dangle as) a replacement field and
corrupt the template, modelled as failure; every other character passes
through. Success returns the text the template renders for that slice. -/
def formatScan : List Char → Option (List Char)
  | [] => Option.some []
  | c :: cs =>
    if c = lb then
      match cs with
      | c2 :: cs2 =>
        if c2 = lb then (formatScan cs2).map (fun t => lb :: t) else Option.none
      | [] => Option.none
    else if c = rb then
      match cs with
      | c2 :: cs2 =>
        if c2 = rb then (formatScan cs2).map (fun t => rb :: t) else Option.none
      | [] => Option.none
    else (formatScan cs).map (fun t => c :: t)

end TemplateTest

/-- A transport whose outbound call always raises (connection refused). -/
def trNull : Transport := fun _ _ _ => TransportOutcome.exn ("connection refused")

/-- A transport whose outbound call always raises a read timeout. -/
def trTimeout : Transport :=
  fun _ _ _ => TransportOutcome.exn ("HTTPConnectionPool: Read timed out.")

/-- A transport that always returns a decoded JSON body. -/
def trOk : Transport :=
  fun _ _ _ => TransportOutcome.ok (PyVal.dict [("status", PyVal.str ("OK"))])

/-- A tool call whose command is not in the registry. -/
def tcBogus : ToolCall := { id := "t_bad", name := "bogus", args := [] }

/-- A valid cpu_info tool call. -/
def tcCpu : ToolCall :=
  { id := "t_good", name := "cpu_info", args := [("server", PyVal.str ("hana01"))] }

/-- A valid disk_usage tool call with an extra server argument. -/
def tcDisk : ToolCall :=
  { id := "call_1", name := "disk_usage",
    args := [("server", PyVal.str ("hana01")), ("path", PyVal.str ("/hana"))] }

/-- A generation service that requests the unknown command once (while the
working context is still the bare user turn), then answers plainly. -/
def llmC1 : LLM := fun msgs =>
  if msgs.length ≤ 1 then LLMResp.ok (Option.some ("")) (Option.some [tcBogus])
  else LLMResp.ok (Option.some ("done")) Option.none

/-- A generation service that always requests the unknown command. -/
def llmC1W : LLM := fun _ => LLMResp.ok (Option.some ("")) (Option.some [tcBogus])

/-- A generation service that always returns one valid tool request. -/
def llmW3 : LLM := fun _ => LLMResp.ok (Option.some ("")) (Option.some [tcCpu])

/-- A generation service that returns a batch of two tool requests whose
first member fails validation. -/
def llmW6 : LLM :=
  fun _ => LLMResp.ok (Option.some ("checking")) (Option.some [tcBogus, tcCpu])

/-- Unfolding of one chat-loop iteration that received tool calls: every
call in the batch is executed in order, every result is appended, and the
loop recurses on the extended context. -/
theorem chatLoop_tool_step (llm : LLM) (tr : Transport) (f : Nat) (msgs : List Msg)
    (c? : Option String) (tcs : List ToolCall)
    (h1 : llm msgs = LLMResp.ok c? (Option.some tcs)) (h2 : tcs ≠ []) :
    chatLoop llm tr (f + 1) msgs =
      nextStep (chatLoop llm tr f
        ((msgs ++ [Msg.assistant (contentOf c?) tcs]) ++
          tcs.map (fun tc => Msg.tool tc.id (json_dumps (execute_tool_call tr tc))))) := by
  have hne : tcs.isEmpty = false := by
    cases tcs with
    | nil => exact absurd rfl h2
    | cons a l => rfl
  simp [chatLoop, h1, toolCallsOf, hne]

/-- A generation service that always issues tool calls drives the loop to
consume its whole budget: n iterations make n generation calls and no
final response. -/
theorem chatLoop_budget (llm : LLM) (tr : Transport)
    (h : ∀ msgs, ∃ c tcs, llm msgs = LLMResp.ok c (Option.some tcs) ∧ tcs ≠ []) :
    ∀ n msgs, (chatLoop llm tr n msgs).1 = Option.none ∧
      (chatLoop llm tr n msgs).2.2 = n := by
  intro n
  induction n with
  | zero => intro msgs; exact ⟨rfl, rfl⟩
  | succ k ih =>
    intro msgs
    obtain ⟨c, tcs, hc, hne⟩ := h msgs
    rw [chatLoop_tool_step llm tr k msgs c tcs hc hne]
    exact ⟨(ih _).1, by simp [nextStep, (ih _).2]⟩

/-- C3: with max_steps = N and a generation service that returns a valid
tool request on every turn, the loop performs exactly N generation calls
(never N + 1), produces no final answer, and chat returns the explicit
could-not-complete-within-N-steps message. -/
theorem claim_C3 (llm : LLM) (tr : Transport) (history : List Msg) (N : Nat)
    (_hN : 1 ≤ N)
    (hllm : ∀ msgs, ∃ c tcs, llm msgs = LLMResp.ok c (Option.some tcs) ∧ tcs ≠ [] ∧
      ∀ tc ∈ tcs, (COMMAND_SPECS.lookup tc.name).isSome = true ∧
        validate_command tc.name (extract_params tc.args) = true) :
    (chatLoop llm tr N history).2.2 = N ∧
    (chatLoop llm tr N history).1 = Option.none ∧
    (chat llm tr history N).1 =
      "Unable to complete request within " ++ toString N ++
      " steps. Please try a simpler request." := by
  have h := chatLoop_budget llm tr (fun msgs => by
    obtain ⟨c, tcs, hc, hne, _⟩ := hllm msgs
    exact ⟨c, tcs, hc, hne⟩) N history
  refine ⟨h.2, h.1, ?_⟩
  simp [chat, h.1, finalizeResp]

/-- C3 witness: a concrete always-tool-calling generation service with a
budget of two steps consumes exactly two generation calls and yields the
budget message. -/
theorem claim_C3_witness :
    1 ≤ 2 ∧
    (chatLoop llmW3 trNull 2 []).2.2 = 2 ∧
    (chatLoop llmW3 trNull 2 []).1 = Option.none ∧
    (chat llmW3 trNull [] 2).1 =
      "Unable to complete request within " ++ toString 2 ++
      " steps. Please try a simpler request." := by
  refine ⟨by decide, ?_⟩
  exact claim_C3 llmW3 trNull [] 2 (by decide) (fun msgs =>
    ⟨Option.some (""), [tcCpu], rfl, by simp, by
      intro tc htc
      simp at htc
      subst htc
      exact ⟨rfl, rfl⟩⟩)

/-- C1 counterexample: a run in which the first turn requests the unknown
command bogus. The executor reports the validation error as a result dict,
but the loop does not terminate there: a second generation-service call
happens, and the invocation ends in the plain final answer done, not in a
validation-error outcome. -/
theorem claim_C1_counterexample :
    execute_tool_call trNull tcBogus =
      PyVal.dict [("error", PyVal.str ("Unknown command: bogus"))] ∧
    (chatLoop llmC1 trNull 3 [Msg.user ("hi")]).2.2 = 2 ∧
    (chat llmC1 trNull [Msg.user ("hi")] 3).1 = "done" :=
  ⟨rfl, rfl, rfl⟩

/-- C1 (amended): a tool request with an unknown command or missing
required parameter yields a structured error result naming the offending
command (and, for parameter failures, the params); the loop does not
terminate on it — the error is appended to the working context like any
tool result and the loop proceeds to its next step. -/
theorem claim_C1 (tr : Transport) (llm : LLM) (tc : ToolCall) (f : Nat)
    (msgs : List Msg) (c? : Option String)
    (hinvalid : COMMAND_SPECS.lookup tc.name = Option.none ∨
      validate_command tc.name (extract_params tc.args) = false)
    (hllm : llm msgs = LLMResp.ok c? (Option.some [tc])) :
    execute_tool_call tr tc =
      (if (COMMAND_SPECS.lookup tc.name).isNone then
        PyVal.dict [("error", PyVal.str ("Unknown command: " ++ tc.name))]
      else
        PyVal.dict [("error", PyVal.str ("Invalid params for " ++ tc.name ++ ": " ++
          pyRepr (PyVal.dict (extract_params tc.args))))]) ∧
    chatLoop llm tr (f + 1) msgs =
      nextStep (chatLoop llm tr f
        ((msgs ++ [Msg.assistant (contentOf c?) [tc]]) ++
          [Msg.tool tc.id (json_dumps (execute_tool_call tr tc))])) := by
  constructor
  · rcases hinvalid with h | h
    · simp [execute_tool_call, h]
    · cases hl : COMMAND_SPECS.lookup tc.name with
      | none => simp [execute_tool_call, hl]
      | some spec => simp [execute_tool_call, hl, h]
  · have hstep := chatLoop_tool_step llm tr f msgs c? [tc] hllm (by simp)
    simpa using hstep

/-- C1 witness: concrete invalid request — the executor reports the
unknown command and one loop step proceeds with the error folded in. -/
theorem claim_C1_witness :
    execute_tool_call trNull tcBogus =
      (if (COMMAND_SPECS.lookup tcBogus.name).isNone then
        PyVal.dict [("error", PyVal.str ("Unknown command: " ++ tcBogus.name))]
      else
        PyVal.dict [("error", PyVal.str ("Invalid params for " ++ tcBogus.name ++ ": " ++
          pyRepr (PyVal.dict (extract_params tcBogus.args))))]) ∧
    chatLoop llmC1W trNull (0 + 1) [] =
      nextStep (chatLoop llmC1W trNull 0
        (([] ++ [Msg.assistant (contentOf (Option.some (""))) [tcBogus]]) ++
          [Msg.tool tcBogus.id (json_dumps (execute_tool_call trNull tcBogus))])) :=
  claim_C1 trNull llmC1W tcBogus 0 [] (Option.some ("")) (Or.inl rfl) rfl

/-- C6: when one turn's output carries several tool requests, the loop
executes each request in the order it appears, a failure result cancels
nothing, and the results of the whole batch are appended to the working
context before the next generation-service call. -/
theorem claim_C6 (llm : LLM) (tr : Transport) (f : Nat) (msgs : List Msg)
    (c? : Option String) (tcs : List ToolCall)
    (h1 : llm msgs = LLMResp.ok c? (Option.some tcs)) (h2 : tcs ≠ []) :
    chatLoop llm tr (f + 1) msgs =
      nextStep (chatLoop llm tr f
        ((msgs ++ [Msg.assistant (contentOf c?) tcs]) ++
          tcs.map (fun tc => Msg.tool tc.id (json_dumps (execute_tool_call tr tc))))) ∧
    (tcs.map (fun tc => Msg.tool tc.id (json_dumps (execute_tool_call tr tc)))).length =
      tcs.length ∧
    (∀ i : Nat,
      (tcs.map (fun tc => Msg.tool tc.id (json_dumps (execute_tool_call tr tc))))[i]? =
        (tcs[i]?).map (fun tc => Msg.tool tc.id (json_dumps (execute_tool_call tr tc)))) := by
  refine ⟨chatLoop_tool_step llm tr f msgs c? tcs h1 h2, List.length_map _ _, ?_⟩
  intro i
  exact List.getElem?_map _ _ _

/-- C6 witness: a concrete batch whose first request fails validation; the
step still executes and appends both results before recursing. -/
theorem claim_C6_witness :
    chatLoop llmW6 trNull (0 + 1) [] =
      nextStep (chatLoop llmW6 trNull 0
        (([] ++ [Msg.assistant (contentOf (Option.some ("checking"))) [tcBogus, tcCpu]]) ++
          [tcBogus, tcCpu].map (fun tc =>
            Msg.tool tc.id (json_dumps (execute_tool_call trNull tc))))) :=
  (claim_C6 llmW6 trNull 0 [] (Option.some ("checking")) [tcBogus, tcCpu] rfl (by simp)).1

/-- C2 counterexample: on the input whose JSON parse is the empty array,
the interpreter does not return — the .get attribute access raises
AttributeError on the list object, which only a JSONDecodeError handler
surrounds. -/
theorem claim_C2_counterexample :
    parse_json_response ("[]") = Except.error (PyExn.attributeError ("list")) := rfl

/-- C2 (amended): the interpreter returns without raising for every input
that fails to parse as JSON and for every input that parses to a JSON
object, yielding the final-answer classification (None) unless the object
is a well-formed monitoring request; but an input whose top-level JSON
value is not an object raises AttributeError. -/
theorem claim_C2 (s : String) :
    (json_loads s = Option.none → parse_json_response s = Except.ok Option.none) ∧
    (∀ d, json_loads s = Option.some (PyVal.dict d) →
      parse_json_response s =
        (if isMonitoringStr (dictGet d "action") && hasKey d "server" &&
            hasKey d "command"
          then Except.ok (Option.some (PyVal.dict d)) else Except.ok Option.none)) ∧
    (∀ v, json_loads s = Option.some v → (∀ d, v ≠ PyVal.dict d) →
      parse_json_response s = Except.error (PyExn.attributeError (pyTypeName v))) := by
  refine ⟨?_, ?_, ?_⟩
  · intro h
    unfold parse_json_response
    rw [h]
  · intro d h
    unfold parse_json_response
    rw [h]
  · intro v h hnd
    unfold parse_json_response
    rw [h]
    cases v with
    | dict d => exact absurd rfl (hnd d)
    | none => rfl
    | bool b => rfl
    | int i => rfl
    | str t => rfl
    | list l => rfl

/-- C2 witness: the empty input fails to parse and is classified as a
final answer without raising. -/
theorem claim_C2_witness :
    parse_json_response ("") = Except.ok Option.none :=
  (claim_C2 ("")).1 rfl

/-- C4: validation succeeds exactly when the command is registered and
every required parameter name appears among the params keys; extra keys
never cause rejection and unknown commands always fail. -/
theorem claim_C4 (command : String) (params : List (String × PyVal)) :
    validate_command command params = true ↔
      ∃ spec, COMMAND_SPECS.lookup command = Option.some spec ∧
        ∀ r ∈ spec.required, r ∈ params.map Prod.fst := by
  cases h : COMMAND_SPECS.lookup command with
  | none => simp [validate_command, h]
  | some spec =>
    simp [validate_command, h, List.all_eq_true, List.any_eq_true, List.mem_map,
      beq_iff_eq]

/-- C4 witness: a registered command with its required key present plus an
unlisted extra key validates. -/
theorem claim_C4_witness :
    validate_command ("get_process_list")
      [("instance", PyVal.str ("00")), ("unlisted", PyVal.str ("x"))] = true :=
  (claim_C4 ("get_process_list")
    [("instance", PyVal.str ("00")), ("unlisted", PyVal.str ("x"))]).mpr
    ⟨get_process_list_spec, rfl, by decide⟩

/-- C5: the executor returns a structured result for every input — a
transport fault becomes the error dict carrying str(e), and a decoded body
passes through; no raw exception reaches the caller. -/
theorem claim_C5 (tr : Transport) (server : PyVal) (command : String)
    (params : Option (List (String × PyVal))) :
    (∀ e, tr server command (params.getD []) = TransportOutcome.exn e →
      call_agent_api tr server command params = PyVal.dict [("error", PyVal.str e)]) ∧
    (∀ v, tr server command (params.getD []) = TransportOutcome.ok v →
      call_agent_api tr server command params = v) := by
  constructor <;> intro x hx <;> simp [call_agent_api, hx]

/-- C5 witness: a timeout during the outbound call is converted to the
structured error dict. -/
theorem claim_C5_witness :
    call_agent_api trTimeout (PyVal.str ("hana01")) ("cpu_info") (Option.some []) =
      PyVal.dict [("error", PyVal.str ("HTTPConnectionPool: Read timed out."))] :=
  (claim_C5 trTimeout (PyVal.str ("hana01")) ("cpu_info") (Option.some [])).1
    ("HTTPConnectionPool: Read timed out.") rfl

/-- C7: for every invocation and every terminal outcome, chat appends
exactly one assistant message (carrying the returned final response) to
the caller-owned history and leaves every pre-existing entry in place. -/
theorem claim_C7 (llm : LLM) (tr : Transport) (history : List Msg) (N : Nat) :
    (chat llm tr history N).2 =
      history ++ [Msg.assistant (chat llm tr history N).1 []] ∧
    ((chat llm tr history N).2).length = history.length + 1 :=
  ⟨rfl, by simp [chat]⟩

/-- C9: the params forwarded to validation and to the agent API are the
tool call's arguments with the server key removed; they never contain a
server entry and preserve every other binding. -/
theorem claim_C9 (tr : Transport) (tc : ToolCall)
    (h1 : (COMMAND_SPECS.lookup tc.name).isSome = true)
    (h2 : validate_command tc.name (extract_params tc.args) = true) :
    execute_tool_call tr tc =
      call_agent_api tr (pyGetDefault tc.args "server") tc.name
        (Option.some (extract_params tc.args)) ∧
    "server" ∉ (extract_params tc.args).map Prod.fst ∧
    (∀ k v, (k, v) ∈ extract_params tc.args ↔ ((k, v) ∈ tc.args ∧ k ≠ "server")) := by
  refine ⟨?_, ?_, ?_⟩
  · have hn : (COMMAND_SPECS.lookup tc.name).isNone = false := by
      cases hx : COMMAND_SPECS.lookup tc.name with
      | none => rw [hx] at h1; cases h1
      | some spec => rfl
    simp [execute_tool_call, hn, h2]
  · simp [extract_params, List.mem_map, List.mem_filter, bne_iff_ne]
  · intro k v
    simp [extract_params, List.mem_filter, bne_iff_ne]

/-- C9 witness: a disk_usage call whose arguments carry server plus the
required path reaches the API with exactly the server-stripped params. -/
theorem claim_C9_witness :
    execute_tool_call trOk tcDisk =
      call_agent_api trOk (pyGetDefault tcDisk.args "server") tcDisk.name
        (Option.some (extract_params tcDisk.args)) ∧
    "server" ∉ (extract_params tcDisk.args).map Prod.fst :=
  ⟨(claim_C9 trOk tcDisk rfl rfl).1, (claim_C9 trOk tcDisk rfl rfl).2.1⟩

/-- C10: every registry entry yields a tool schema whose required array is
server followed by exactly the command's required names, whose properties
list server as a string parameter, and whose properties cover every
declared parameter. -/
theorem claim_C10 : ∀ p ∈ COMMAND_SPECS, ∃ t ∈ build_command_specific_tools,
    t.function.name = p.1 ∧
    t.function.required = "server" :: p.2.required ∧
    "server" ∈ t.function.required ∧
    t.function.properties.lookup "server" =
      Option.some { type := "string", description := "Server name to monitor" } ∧
    ∀ q ∈ p.2.params, (t.function.properties.lookup q.1).isSome = true := by
  decide

/-- C10 witness: the cpu_info registry entry has such a schema. -/
theorem claim_C10_witness : ∃ t ∈ build_command_specific_tools,
    t.function.name = "cpu_info" ∧
    t.function.required = "server" :: cpu_info_spec.required ∧
    "server" ∈ t.function.required ∧
    t.function.properties.lookup "server" =
      Option.some { type := "string", description := "Server name to monitor" } ∧
    ∀ q ∈ cpu_info_spec.params, (t.function.properties.lookup q.1).isSome = true :=
  claim_C10 ("cpu_info", cpu_info_spec) (by decide)

namespace TemplateTest

/-- One-character replace distributes over append. -/
theorem replaceChar_append (c : Char) (r : List Char) (a b : List Char) :
    replaceChar c r (a ++ b) = replaceChar c r a ++ replaceChar c r b := by
  induction a with
  | nil => rfl
  | cons x xs ih => simp [replaceChar, ih]

/-- The scanner passes a non-brace head through, whatever the tail is. -/
theorem formatScan_cons_other (c : Char) (h1 : c ≠ lb) (h2 : c ≠ rb) (t : List Char) :
    formatScan (c :: t) = (formatScan t).map (fun x => c :: x) := by
  cases t <;> simp [formatScan, h1, h2]

/-- Escaping braces by doubling makes the template scanner reproduce the
original text, for every input string. -/
theorem formatScan_esc (t : List Char) :
    formatScan (replaceChar rb [rb, rb] (replaceChar lb [lb, lb] t)) = Option.some t := by
  have hlbrb : lb ≠ rb := by decide
  induction t with
  | nil => rfl
  | cons c cs ih =>
    by_cases h1 : c = lb
    · subst h1
      simp [replaceChar, replaceChar_append, hlbrb, formatScan, ih]
    · by_cases h2 : c = rb
      · subst h2
        simp [replaceChar, replaceChar_append, hlbrb.symm, formatScan, ih]
      · simp only [replaceChar, replaceChar_append, if_neg h1, if_neg h2,
          List.singleton_append, List.nil_append, List.cons_append]
        rw [formatScan_cons_other c h1 h2, ih]
        rfl

end TemplateTest

/-- C8: the rendered command catalog doubles every literal brace, so the
template scanner accepts the escaped catalog and renders it back to the
original catalog text — for the source's catalog and for every possible
rendering. -/
theorem claim_C8 :
    (∀ t : List Char,
      TemplateTest.formatScan
        (TemplateTest.replaceChar rb [rb, rb]
          (TemplateTest.replaceChar lb [lb, lb] t)) = Option.some t) ∧
    TemplateTest.formatScan (TemplateTest.build_command_help).data =
      Option.some (TemplateTest.help_text).data :=
  ⟨TemplateTest.formatScan_esc, TemplateTest.formatScan_esc (TemplateTest.help_text).data⟩

end Hub
